import Mathlib

/-!
Shallow embedding of the `frigidaire` Home Assistant custom integration
(`custom_components/frigidaire/__init__.py` and
`custom_components/frigidaire/humidifier.py`).

The vendor `frigidaire` client library and the Home Assistant framework are
external dependencies of the repository; the enumerations below model exactly
the members of those libraries that the integration's code references (plus,
where the code's guards make the distinction observable, one representative
member outside the referenced set, mirroring the vendor library's wider
enumerations).  Python dictionaries keyed by these enumerations are embedded
as association lists, with `dictGet` modelling `dict.get` / `dict[...]`
lookup (a `none` result at an indexing site stands for a raised `KeyError`).
Stateful entity methods are embedded as pure functions from the entity state
to a new state together with the list of vendor-client calls they issue;
Python exceptions escaping a method are modelled with `Except`.
-/

set_option autoImplicit false

namespace Frig

/-- Vendor enumeration `frigidaire.Mode`.  The integration references
`OFF`, `DRY`, `CONTINUOUS`, `QUIET` and `AUTO`; `COOL` stands for the
vendor library's further members that never appear in the mapping tables. -/
inductive Mode where
  | OFF
  | COOL
  | DRY
  | CONTINUOUS
  | QUIET
  | AUTO
deriving DecidableEq, Repr

/-- Vendor enumeration `frigidaire.FanSpeed`.  The integration's tables
reference `LOW`, `MEDIUM` and `HIGH`; `OFF` and `AUTO` are further vendor
members outside the tables. -/
inductive FanSpeed where
  | OFF
  | LOW
  | MEDIUM
  | HIGH
  | AUTO
deriving DecidableEq, Repr

/-- Vendor enumeration `frigidaire.Power`. -/
inductive Power where
  | ON
  | OFF
deriving DecidableEq, Repr

/-- Vendor enumeration `frigidaire.ApplianceState`. -/
inductive ApplianceState where
  | OFF
  | RUNNING
deriving DecidableEq, Repr

/-- Vendor enumeration `frigidaire.Destination`. -/
inductive Destination where
  | DEHUMIDIFIER
  | AIR_CONDITIONER
deriving DecidableEq, Repr

/-- Vendor enumeration `frigidaire.FilterState`.  Only `GOOD` is referenced
by the integration; `CHANGE` stands for the remaining vendor members. -/
inductive FilterState where
  | GOOD
  | CHANGE
deriving DecidableEq, Repr

/-- Vendor enumeration `frigidaire.Alert`.  Only `BUCKET_FULL` is referenced
by the integration; `OTHER` stands for the remaining vendor members. -/
inductive Alert where
  | BUCKET_FULL
  | OTHER
deriving DecidableEq, Repr

/-- An element of the list stored under `frigidaire.Detail.ALERTS`: the old
vendor API reports alerts as `frigidaire.Alert` enumeration members, the new
one as dictionaries carrying a `code` entry. -/
inductive AlertItem where
  | enum_alert (a : Alert)
  | dict_alert (code : Option String)
deriving DecidableEq, Repr

/-- Vendor datatype `frigidaire.Action`, built by the class methods the
integration calls (`set_power`, `set_mode`, `set_fan_speed`, `set_humidity`). -/
inductive Action where
  | set_power (p : Power)
  | set_mode (m : Mode)
  | set_fan_speed (f : FanSpeed)
  | set_humidity (h : Int)
deriving DecidableEq, Repr

/-- Vendor datatype `frigidaire.Appliance` (the fields the integration reads). -/
structure Appliance where
  appliance_id : String
  nickname : String
  destination : Destination
deriving DecidableEq, Repr

/-- The vendor client `frigidaire.Frigidaire`, opaque to the integration. -/
structure Frigidaire where
  token : Nat
deriving DecidableEq, Repr

/-- The appliance-details dictionary returned by
`Frigidaire.get_appliance_details`, embedded as a record whose fields are the
entries the integration reads via `.get` (absent entry = `none`). -/
structure Details where
  mode : Option Mode
  fanSpeed : Option FanSpeed
  applianceState : Option ApplianceState
  targetHumidity : Option Int
  sensorHumidity : Option Int
  filterState : Option FilterState
  alerts : Option (List AlertItem)
  waterBucketLevel : Option Int
  connectivityState : Option String
deriving DecidableEq, Repr

/-- A call made on the vendor client by the integration. -/
inductive ClientCall where
  | execute_action (a : Appliance) (act : Action)
  | get_appliance_details (a : Appliance)
  | get_appliances
deriving DecidableEq, Repr

/-- Lookup in a Python dictionary embedded as an association list:
`dictGet d k = some v` models `d[k] == v` (and `d.get(k) == v`), while
`dictGet d k = none` models a `KeyError` on `d[k]` (and `d.get(k) is None`). -/
def dictGet {α β : Type} [DecidableEq α] : List (α × β) → α → Option β
  | [], _ => none
  | (k, v) :: rest, a => if a = k then some v else dictGet rest a

/-- Home Assistant constant `MODE_NORMAL`. -/
def MODE_NORMAL : String := "normal"

/-- Home Assistant constant `MODE_BOOST`. -/
def MODE_BOOST : String := "boost"

/-- Home Assistant constant `MODE_SLEEP`. -/
def MODE_SLEEP : String := "sleep"

/-- Home Assistant constant `MODE_AUTO`. -/
def MODE_AUTO : String := "auto"

/-- `FAN_LOW` from `humidifier.py`. -/
def FAN_LOW : String := "low"

/-- `FAN_MEDIUM` from `humidifier.py`. -/
def FAN_MEDIUM : String := "medium"

/-- `FAN_HIGH` from `humidifier.py`. -/
def FAN_HIGH : String := "high"

/-- The dictionary literal `FRIGIDAIRE_TO_HA_MODE` from `humidifier.py`. -/
def FRIGIDAIRE_TO_HA_MODE : List (Mode × String) :=
  [(Mode.DRY, MODE_NORMAL),
   (Mode.CONTINUOUS, MODE_BOOST),
   (Mode.QUIET, MODE_SLEEP),
   (Mode.AUTO, MODE_AUTO)]

/-- `HA_TO_FRIGIDAIRE_MODE = \x7bv: k for k, v in FRIGIDAIRE_TO_HA_MODE.items()\x7d`. -/
def HA_TO_FRIGIDAIRE_MODE : List (String × Mode) :=
  FRIGIDAIRE_TO_HA_MODE.map (fun kv => (kv.2, kv.1))

/-- The dictionary literal `FRIGIDAIRE_TO_HA_FAN_MODE` from `humidifier.py`. -/
def FRIGIDAIRE_TO_HA_FAN_MODE : List (FanSpeed × String) :=
  [(FanSpeed.LOW, FAN_LOW),
   (FanSpeed.MEDIUM, FAN_MEDIUM),
   (FanSpeed.HIGH, FAN_HIGH)]

/-- `HA_TO_FRIGIDAIRE_FAN_MODE = \x7bv: k for k, v in FRIGIDAIRE_TO_HA_FAN_MODE.items()\x7d`. -/
def HA_TO_FRIGIDAIRE_FAN_MODE : List (String × FanSpeed) :=
  FRIGIDAIRE_TO_HA_FAN_MODE.map (fun kv => (kv.2, kv.1))

/-- The entity state of a `FrigidaireDehumidifier` instance: the attributes
assigned in `__init__` together with `_attr_available` (inherited from the
Home Assistant `Entity` base class, initially `True`). -/
structure FrigidaireDehumidifier where
  client : Frigidaire
  appliance : Appliance
  details : Option Details
  attr_unique_id : String
  attr_name : String
  attr_assumed_state : Bool
  attr_modes : List String
  attr_available : Bool
deriving DecidableEq, Repr

namespace FrigidaireDehumidifier

/-- `FrigidaireDehumidifier.__init__(client, appliance)`. -/
def init (client : Frigidaire) (appliance : Appliance) : FrigidaireDehumidifier :=
  { client := client
    appliance := appliance
    details := none
    attr_unique_id := appliance.appliance_id
    attr_name := appliance.nickname
    attr_assumed_state := true
    attr_modes := [ MODE_NORMAL, MODE_BOOST, MODE_AUTO, MODE_SLEEP]
    attr_available := true }

/-- `FrigidaireDehumidifier.turn_on`: the resulting entity state and the
client calls issued. -/
def turn_on (s : FrigidaireDehumidifier) : FrigidaireDehumidifier × List ClientCall :=
  (s, [ClientCall.execute_action s.appliance (Action.set_power Power.ON)])

/-- `FrigidaireDehumidifier.turn_off`: the resulting entity state and the
client calls issued. -/
def turn_off (s : FrigidaireDehumidifier) : FrigidaireDehumidifier × List ClientCall :=
  (s, [ClientCall.execute_action s.appliance (Action.set_power Power.OFF)])

/-- `FrigidaireDehumidifier.set_fan_mode`.  A `.error` result models a Python
exception escaping the method. -/
def set_fan_mode (s : FrigidaireDehumidifier) (fan_mode : String) :
    Except String (FrigidaireDehumidifier × List ClientCall) :=
  if (dictGet HA_TO_FRIGIDAIRE_FAN_MODE fan_mode).isNone then
    Except.ok (s, [])
  else
    match dictGet HA_TO_FRIGIDAIRE_FAN_MODE fan_mode with
    | some speed =>
        Except.ok (s, [ClientCall.execute_action s.appliance (Action.set_fan_speed speed)])
    | none => Except.error "KeyError"

/-- `FrigidaireDehumidifier.set_mode`.  Reading
`self._details.get(frigidaire.Detail.APPLIANCE_STATE)` while `_details` is
still `None` raises `AttributeError`; `self.turn_on()` contributes its
client call to the trace. -/
def set_mode (s : FrigidaireDehumidifier) (mode : String) :
    Except String (FrigidaireDehumidifier × List ClientCall) :=
  if (dictGet HA_TO_FRIGIDAIRE_MODE mode).isNone then
    Except.ok (s, [])
  else
    match s.details with
    | none => Except.error "AttributeError"
    | some d =>
      let power_calls :=
        if d.applianceState = some ApplianceState.OFF then (turn_on s).2 else []
      match dictGet HA_TO_FRIGIDAIRE_MODE mode with
      | some m =>
          Except.ok (s, power_calls ++ [ClientCall.execute_action s.appliance (Action.set_mode m)])
      | none => Except.error "KeyError"

/-- `FrigidaireDehumidifier.set_humidity`.  The input is `Option Int` to
model the `if humidity is None: return` guard.  Python's
`5 * round(humidity / 5)` is true division followed by `round`; for an
integer `humidity` the quotient `humidity / 5` is never a half-integer, so
Python's round-half-to-even agrees with Mathlib's `round` there. -/
def set_humidity (s : FrigidaireDehumidifier) (humidity : Option Int) :
    Except String (FrigidaireDehumidifier × List ClientCall) :=
  match humidity with
  | none => Except.ok (s, [])
  | some h =>
    let humidity : Int := 5 * round ((h : ℚ) / 5)
    match set_mode s MODE_NORMAL with
    | Except.error e => Except.error e
    | Except.ok (s1, calls) =>
        Except.ok (s1,
          calls ++ [ClientCall.execute_action s1.appliance (Action.set_humidity humidity)])

end FrigidaireDehumidifier

/-- The vendor exception type `frigidaire.FrigidaireException`. -/
structure FrigidaireException where
  message : String
deriving DecidableEq, Repr

/-- `FrigidaireDehumidifier.update`, parametrised by the outcome of the one
`get_appliance_details` client call it makes (success with a details
dictionary, or a raised `FrigidaireException`). -/
def FrigidaireDehumidifier.update (s : FrigidaireDehumidifier)
    (resp : Except FrigidaireException Details) :
    FrigidaireDehumidifier × List ClientCall :=
  match resp with
  | Except.ok details =>
      ({ s with
          details := some details
          attr_available := decide (details.connectivityState = some "connected") },
       [ClientCall.get_appliance_details s.appliance])
  | Except.error _ =>
      ({ s with attr_available := false },
       [ClientCall.get_appliance_details s.appliance])

/-- Property `FrigidaireDehumidifier.mode`: the integration's translation of
the vendor mode detail to a Home Assistant mode string.  `_details` may
still be `None` (`AttributeError`), and indexing `FRIGIDAIRE_TO_HA_MODE`
with an absent or unmapped vendor mode raises `KeyError`. -/
def FrigidaireDehumidifier.mode (s : FrigidaireDehumidifier) : Except String String :=
  match s.details with
  | none => Except.error "AttributeError"
  | some d =>
    let frigidaire_mode := d.mode
    if frigidaire_mode = some Mode.OFF then
      Except.ok MODE_NORMAL
    else
      match frigidaire_mode with
      | some m =>
        match dictGet FRIGIDAIRE_TO_HA_MODE m with
        | some v => Except.ok v
        | none => Except.error "KeyError"
      | none => Except.error "KeyError"

/-- The dictionary built by `FrigidaireDehumidifier.extra_state_attributes`. -/
structure ExtraStateAttributes where
  current_humidity : Option Int
  check_filter : Bool
  fan_mode : String
  bin_full : Bool
deriving DecidableEq, Repr

/-- `any(alert.get("code") == "BUCKET_FULL" for alert in alerts)`: the
generator is evaluated left to right until a match; calling `.get` on an
old-style enumeration alert raises `AttributeError`. -/
def any_alert_code_bucket_full : List AlertItem → Except String Bool
  | [] => Except.ok false
  | AlertItem.enum_alert _ :: _ => Except.error "AttributeError"
  | AlertItem.dict_alert code :: rest =>
      if code = some "BUCKET_FULL" then Except.ok true
      else any_alert_code_bucket_full rest

/-- Property `FrigidaireDehumidifier.extra_state_attributes`.  The
`fan_mode` entry indexes `FRIGIDAIRE_TO_HA_FAN_MODE` with the raw
`FAN_SPEED` detail without a membership guard, so an absent or unmapped fan
speed raises `KeyError` while the dictionary literal is being built. -/
def FrigidaireDehumidifier.extra_state_attributes (s : FrigidaireDehumidifier) :
    Except String ExtraStateAttributes :=
  match s.details with
  | none => Except.error "AttributeError"
  | some d =>
    let fan_speed := d.fanSpeed
    match fan_speed with
    | none => Except.error "KeyError"
    | some fs =>
      match dictGet FRIGIDAIRE_TO_HA_FAN_MODE fs with
      | none => Except.error "KeyError"
      | some fan_mode =>
        let attrib : ExtraStateAttributes :=
          { current_humidity := d.sensorHumidity
            check_filter := decide (d.filterState ≠ some FilterState.GOOD)
            fan_mode := fan_mode
            bin_full := false }
        let after_alerts : Except String Bool :=
          match d.alerts with
          | none => Except.ok false
          | some alerts =>
            let b1 :=
              if alerts.any (fun alert => decide (alert = AlertItem.enum_alert Alert.BUCKET_FULL))
              then true else false
            match any_alert_code_bucket_full alerts with
            | Except.error e => Except.error e
            | Except.ok found => Except.ok (if found then true else b1)
        match after_alerts with
        | Except.error e => Except.error e
        | Except.ok b =>
          let bin_full :=
            if ¬ b then (if d.waterBucketLevel = some 1 then true else b) else b
          Except.ok { attrib with bin_full := bin_full }

/-- The entity list built by the humidifier platform's `async_setup_entry`
from the appliances returned by `Frigidaire.get_appliances`: the Python list
comprehension filtering on `Destination.DEHUMIDIFIER`. -/
def async_setup_entry_entities (client : Frigidaire) (appliances : List Appliance) :
    List FrigidaireDehumidifier :=
  (appliances.filter (fun appliance =>
      decide (appliance.destination = Destination.DEHUMIDIFIER))).map
    (fun appliance => FrigidaireDehumidifier.init client appliance)

/-- Python `dict.pop(k)` on a dictionary embedded as an association list:
returns the popped value and the remaining dictionary, or raises `KeyError`
when the key is absent. -/
def dict_pop {β : Type} : List (String × β) → String → Except String (β × List (String × β))
  | [], _ => Except.error "KeyError"
  | (k0, v0) :: rest, k =>
    if k = k0 then Except.ok (v0, rest)
    else
      match dict_pop rest k with
      | Except.ok (v, rest') => Except.ok (v, (k0, v0) :: rest')
      | Except.error e => Except.error e

/-- `async_unload_entry` from `__init__.py`, parametrised by the boolean
result of `hass.config_entries.async_unload_platforms` and acting on
`hass.data[DOMAIN]` (an association list from entry ids to clients).  It
returns `unload_ok` together with the new `hass.data[DOMAIN]`. -/
def async_unload_entry (hass_data : List (String × Frigidaire)) (entry_id : String)
    (unload_ok : Bool) : Except String (Bool × List (String × Frigidaire)) :=
  if unload_ok then
    match dict_pop hass_data entry_id with
    | Except.ok (_, remaining) => Except.ok (unload_ok, remaining)
    | Except.error e => Except.error e
  else
    Except.ok (unload_ok, hass_data)

/-- A concrete details dictionary used by witness theorems. -/
def sample_details : Details :=
  { mode := some Mode.DRY
    fanSpeed := some FanSpeed.LOW
    applianceState := some ApplianceState.RUNNING
    targetHumidity := some 50
    sensorHumidity := some 42
    filterState := some FilterState.GOOD
    alerts := some []
    waterBucketLevel := some 0
    connectivityState := some "connected" }

/-- A concrete entity state with populated details, used by witness
theorems. -/
def sample_entity : FrigidaireDehumidifier :=
  { FrigidaireDehumidifier.init ⟨0⟩ ⟨"id0", "Basement", Destination.DEHUMIDIFIER⟩ with
      details := some sample_details }

/-- A details dictionary whose vendor mode is `OFF`, used by witness
theorems. -/
def sample_details_off : Details :=
  { sample_details with mode := some Mode.OFF }

/-- An entity whose details report mode `OFF`, used by witness theorems. -/
def sample_entity_off : FrigidaireDehumidifier :=
  { sample_entity with details := some sample_details_off }

/-- A details dictionary whose fan speed is `OFF` (outside the mapping
tables), used by witness theorems. -/
def sample_details_fan_off : Details :=
  { sample_details with fanSpeed := some FanSpeed.OFF }

/-- An entity whose details report fan speed `OFF`, used by witness
theorems. -/
def sample_entity_fan_off : FrigidaireDehumidifier :=
  { sample_entity with details := some sample_details_fan_off }

/-- Claim C5: `turn_on` issues exactly the single client call
`execute_action(appliance, Action.set_power(Power.ON))` and leaves the
entity state unchanged, and `turn_off` issues exactly the single call
`execute_action(appliance, Action.set_power(Power.OFF))` and leaves the
entity state unchanged. -/
theorem turn_on_off_single_power_action (s : FrigidaireDehumidifier) :
    s.turn_on = (s, [ClientCall.execute_action s.appliance (Action.set_power Power.ON)]) ∧
    s.turn_off = (s, [ClientCall.execute_action s.appliance (Action.set_power Power.OFF)]) :=
  ⟨rfl, rfl⟩

/-- Claim C2: for a mode outside `HA_TO_FRIGIDAIRE_MODE`, `set_mode` returns
normally with no client call and an unchanged entity state, and likewise
`set_fan_mode` for a fan mode outside `HA_TO_FRIGIDAIRE_FAN_MODE`. -/
theorem unmapped_mode_and_fan_mode_are_noops (s : FrigidaireDehumidifier)
    (m f : String)
    (hm : dictGet HA_TO_FRIGIDAIRE_MODE m = none)
    (hf : dictGet HA_TO_FRIGIDAIRE_FAN_MODE f = none) :
    s.set_mode m = Except.ok (s, []) ∧ s.set_fan_mode f = Except.ok (s, []) := by
  constructor
  · simp [FrigidaireDehumidifier.set_mode, hm]
  · simp [FrigidaireDehumidifier.set_fan_mode, hf]

/-- Witness for C2 at the inputs `"eco"` and `"turbo"`, which are in neither
mapping table, starting from a freshly initialised entity. -/
theorem unmapped_mode_and_fan_mode_are_noops_witness :
    (FrigidaireDehumidifier.init ⟨0⟩ ⟨"id0", "Basement", Destination.DEHUMIDIFIER⟩).set_mode "eco"
        = Except.ok (FrigidaireDehumidifier.init ⟨0⟩ ⟨"id0", "Basement", Destination.DEHUMIDIFIER⟩, []) ∧
    (FrigidaireDehumidifier.init ⟨0⟩ ⟨"id0", "Basement", Destination.DEHUMIDIFIER⟩).set_fan_mode "turbo"
        = Except.ok (FrigidaireDehumidifier.init ⟨0⟩ ⟨"id0", "Basement", Destination.DEHUMIDIFIER⟩, []) :=
  unmapped_mode_and_fan_mode_are_noops _ "eco" "turbo" (by decide) (by decide)

/-- Claim C1: every key of `FRIGIDAIRE_TO_HA_MODE` round-trips through
`HA_TO_FRIGIDAIRE_MODE` back to itself, and every key of
`FRIGIDAIRE_TO_HA_FAN_MODE` round-trips through `HA_TO_FRIGIDAIRE_FAN_MODE`
back to itself. -/
theorem mode_and_fan_tables_roundtrip :
    (∀ (k : Mode) (v : String), dictGet FRIGIDAIRE_TO_HA_MODE k = some v →
      dictGet HA_TO_FRIGIDAIRE_MODE v = some k) ∧
    (∀ (k : FanSpeed) (v : String), dictGet FRIGIDAIRE_TO_HA_FAN_MODE k = some v →
      dictGet HA_TO_FRIGIDAIRE_FAN_MODE v = some k) := by
  constructor
  · intro k v h
    cases k <;> simp [FRIGIDAIRE_TO_HA_MODE, dictGet] at h <;> subst h <;> decide
  · intro k v h
    cases k <;> simp [FRIGIDAIRE_TO_HA_FAN_MODE, dictGet] at h <;> subst h <;> decide

/-- Witness for C1 at `Mode.DRY` and `FanSpeed.LOW`. -/
theorem mode_and_fan_tables_roundtrip_witness :
    dictGet HA_TO_FRIGIDAIRE_MODE MODE_NORMAL = some Mode.DRY ∧
    dictGet HA_TO_FRIGIDAIRE_FAN_MODE FAN_LOW = some FanSpeed.LOW :=
  ⟨mode_and_fan_tables_roundtrip.1 Mode.DRY MODE_NORMAL (by decide),
   mode_and_fan_tables_roundtrip.2 FanSpeed.LOW FAN_LOW (by decide)⟩

/-- Claim C3: when `get_appliance_details` raises `FrigidaireException`,
`update` leaves `_details` unchanged, sets `_attr_available` to `False`, and
the whole call makes exactly the one client call (no retry). -/
theorem update_on_exception_keeps_stale_details (s : FrigidaireDehumidifier)
    (e : FrigidaireException) :
    (s.update (Except.error e)).1.attr_available = false ∧
    (s.update (Except.error e)).1.details = s.details ∧
    (s.update (Except.error e)).2 = [ClientCall.get_appliance_details s.appliance] :=
  ⟨rfl, rfl, rfl⟩

/-- Claim C8: when `get_appliance_details` succeeds, `update` overwrites
`_details` with the fresh details and sets `_attr_available` to `True`
exactly when the fetched `connectivityState` entry equals `"connected"` —
so availability can be `False` after a successful poll. -/
theorem update_on_success_tracks_connectivity (s : FrigidaireDehumidifier)
    (d : Details) :
    (s.update (Except.ok d)).1.details = some d ∧
    ((s.update (Except.ok d)).1.attr_available = true ↔
      d.connectivityState = some "connected") ∧
    (s.update (Except.ok d)).2 = [ClientCall.get_appliance_details s.appliance] := by
  refine ⟨rfl, ?_, rfl⟩
  simp [FrigidaireDehumidifier.update]

/-- For an integer `h`, `5 * round ((h : ℚ) / 5)` is at least as close to
`h` as any other multiple of `5`. -/
theorem five_round_div_five_nearest (h : Int) :
    ∀ m : Int, 5 ∣ m → |5 * round ((h : ℚ) / 5) - h| ≤ |m - h| := by
  intro m hm
  obtain ⟨k, rfl⟩ := hm
  set r : Int := round ((h : ℚ) / 5) with hr
  have h1 : |(h : ℚ) / 5 - r| ≤ 1 / 2 := abs_sub_round _
  have h2 : |(h : ℚ) - 5 * r| ≤ 5 / 2 := by
    have hmul : (h : ℚ) - 5 * r = 5 * ((h : ℚ) / 5 - r) := by ring
    rw [hmul, abs_mul]
    rw [show |(5 : ℚ)| = 5 by norm_num]
    linarith
  have h3 : |h - 5 * r| ≤ 2 := by
    have hcast : |((h - 5 * r : Int) : ℚ)| ≤ 5 / 2 := by push_cast; exact h2
    rw [← Int.cast_abs] at hcast
    have hlt : ((|h - 5 * r| : Int) : ℚ) < 3 := lt_of_le_of_lt hcast (by norm_num)
    have : |h - 5 * r| < 3 := by exact_mod_cast hlt
    omega
  have h4 := abs_le.mp h3
  rcases abs_cases (5 * k - h) with ⟨e1, s1⟩ | ⟨e1, s1⟩ <;>
    rcases abs_cases (5 * r - h) with ⟨e2, s2⟩ | ⟨e2, s2⟩ <;>
    rw [e1, e2] <;> omega

/-- Claim C4: for a non-`None` integer input, `set_humidity` sends the
client a `set_humidity` action whose value is `5 * round(humidity / 5)`,
which is a multiple of `5` and is the multiple of `5` nearest to the
input. -/
theorem set_humidity_sends_nearest_multiple_of_five (s : FrigidaireDehumidifier)
    (d : Details) (h : Int) (hd : s.details = some d) :
    ∃ pre : List ClientCall,
      s.set_humidity (some h) =
        Except.ok (s, pre ++ [ClientCall.execute_action s.appliance
          (Action.set_humidity (5 * round ((h : ℚ) / 5)))]) ∧
      (5 : Int) ∣ 5 * round ((h : ℚ) / 5) ∧
      ∀ m : Int, 5 ∣ m → |5 * round ((h : ℚ) / 5) - h| ≤ |m - h| := by
  refine ⟨(if d.applianceState = some ApplianceState.OFF then
      [ClientCall.execute_action s.appliance (Action.set_power Power.ON)] else [])
      ++ [ClientCall.execute_action s.appliance (Action.set_mode Mode.DRY)],
    ?_, ⟨_, rfl⟩, five_round_div_five_nearest h⟩
  simp [FrigidaireDehumidifier.set_humidity, FrigidaireDehumidifier.set_mode,
    FrigidaireDehumidifier.turn_on, hd, HA_TO_FRIGIDAIRE_MODE,
    FRIGIDAIRE_TO_HA_MODE, MODE_NORMAL, dictGet]

/-- Witness for C4 at input humidity `37` on a concrete entity. -/
theorem set_humidity_sends_nearest_multiple_of_five_witness :
    ∃ pre : List ClientCall,
      sample_entity.set_humidity (some 37) =
        Except.ok (sample_entity, pre ++ [ClientCall.execute_action sample_entity.appliance
          (Action.set_humidity (5 * round ((37 : ℚ) / 5)))]) ∧
      (5 : Int) ∣ 5 * round ((37 : ℚ) / 5) ∧
      ∀ m : Int, 5 ∣ m → |5 * round ((37 : ℚ) / 5) - 37| ≤ |m - 37| :=
  set_humidity_sends_nearest_multiple_of_five sample_entity sample_details 37 rfl

/-- Claim C6: for every appliance list, the humidifier platform's setup
builds exactly one entity per appliance with destination `DEHUMIDIFIER`, in
order, and none for other destinations: projecting the built entities back
to their appliances yields precisely the dehumidifier sublist. -/
theorem setup_entry_adds_exactly_dehumidifier_entities (client : Frigidaire)
    (appliances : List Appliance) :
    (async_setup_entry_entities client appliances).map FrigidaireDehumidifier.appliance
      = appliances.filter (fun a => decide (a.destination = Destination.DEHUMIDIFIER)) := by
  unfold async_setup_entry_entities
  rw [List.map_map,
    show (FrigidaireDehumidifier.appliance ∘ fun appliance =>
      FrigidaireDehumidifier.init client appliance) = id from rfl]
  exact List.map_id _

/-- A key absent from an association list's key set looks up to `none`. -/
theorem dictGet_eq_none_of_not_mem_keys {β : Type} (l : List (String × β)) (k : String)
    (h : k ∉ l.map Prod.fst) : dictGet l k = none := by
  induction l with
  | nil => rfl
  | cons p rest ih =>
    obtain ⟨k0, v0⟩ := p
    simp only [List.map_cons, List.mem_cons, not_or] at h
    simp [dictGet, h.1, ih h.2]

/-- `dict.pop` on a present key returns its value and removes exactly that
binding, leaving every other key's lookup unchanged. -/
theorem dict_pop_spec {β : Type} (data : List (String × β)) (i : String) (c : β)
    (hnodup : (data.map Prod.fst).Nodup) (hmem : dictGet data i = some c) :
    ∃ d', dict_pop data i = Except.ok (c, d') ∧
      dictGet d' i = none ∧ ∀ k, k ≠ i → dictGet d' k = dictGet data k := by
  induction data with
  | nil => simp [dictGet] at hmem
  | cons p rest ih =>
    obtain ⟨k0, v0⟩ := p
    simp only [List.map_cons, List.nodup_cons] at hnodup
    by_cases hki : i = k0
    · subst hki
      simp [dictGet] at hmem
      subst hmem
      refine ⟨rest, by simp [dict_pop], ?_, ?_⟩
      · exact dictGet_eq_none_of_not_mem_keys rest i hnodup.1
      · intro k hk
        simp [dictGet, hk]
    · simp [dictGet, hki] at hmem
      obtain ⟨d', hpop, hnone, hoth⟩ := ih hnodup.2 hmem
      refine ⟨(k0, v0) :: d', by simp [dict_pop, hki, hpop], ?_, ?_⟩
      · simp [dictGet, hki, hnone]
      · intro k hk
        by_cases hkk0 : k = k0
        · simp [dictGet, hkk0]
        · simp [dictGet, hkk0, hoth k hk]

/-- Claim C7: `async_unload_entry` returns the unload result; on a failed
unload `hass.data[DOMAIN]` is unchanged, and on a successful unload the
client stored under the entry id (and nothing else) is removed from it. -/
theorem unload_entry_pops_client_iff_unload_ok
    (hass_data : List (String × Frigidaire)) (entry_id : String) :
    (async_unload_entry hass_data entry_id false = Except.ok (false, hass_data)) ∧
    (∀ c : Frigidaire, (hass_data.map Prod.fst).Nodup →
      dictGet hass_data entry_id = some c →
      ∃ remaining, async_unload_entry hass_data entry_id true = Except.ok (true, remaining) ∧
        dictGet remaining entry_id = none ∧
        ∀ k, k ≠ entry_id → dictGet remaining k = dictGet hass_data k) := by
  constructor
  · simp [async_unload_entry]
  · intro c hnodup hmem
    obtain ⟨d', hpop, hnone, hoth⟩ := dict_pop_spec hass_data entry_id c hnodup hmem
    exact ⟨d', by simp [async_unload_entry, hpop], hnone, hoth⟩

/-- Witness for C7 on a two-entry `hass.data[DOMAIN]`. -/
theorem unload_entry_pops_client_iff_unload_ok_witness :
    (async_unload_entry [("e1", (⟨1⟩ : Frigidaire)), ("e2", ⟨2⟩)] "e1" false
        = Except.ok (false, [("e1", ⟨1⟩), ("e2", ⟨2⟩)])) ∧
    (∃ remaining,
      async_unload_entry [("e1", (⟨1⟩ : Frigidaire)), ("e2", ⟨2⟩)] "e1" true
          = Except.ok (true, remaining) ∧
      dictGet remaining "e1" = none ∧
      ∀ k, k ≠ "e1" → dictGet remaining k
          = dictGet [("e1", (⟨1⟩ : Frigidaire)), ("e2", ⟨2⟩)] k) :=
  ⟨(unload_entry_pops_client_iff_unload_ok _ "e1").1,
   (unload_entry_pops_client_iff_unload_ok _ "e1").2 ⟨1⟩ (by decide) (by decide)⟩

/-- Claim C9: with details present, a vendor mode of `OFF` makes the `mode`
property report `MODE_NORMAL`, and any other vendor mode is translated by
indexing `FRIGIDAIRE_TO_HA_MODE` (whose misses raise `KeyError`). -/
theorem mode_property_off_reports_normal (s : FrigidaireDehumidifier) (d : Details)
    (hd : s.details = some d) :
    (d.mode = some Mode.OFF → s.mode = Except.ok MODE_NORMAL) ∧
    (∀ m : Mode, d.mode = some m → m ≠ Mode.OFF →
      s.mode = (match dictGet FRIGIDAIRE_TO_HA_MODE m with
        | some v => Except.ok v
        | none => Except.error "KeyError")) := by
  constructor
  · intro hoff
    simp [FrigidaireDehumidifier.mode, hd, hoff]
  · intro m hm hne
    simp [FrigidaireDehumidifier.mode, hd, hm, hne]

/-- Witness for C9: an entity reporting vendor mode `OFF` and one reporting
vendor mode `DRY`. -/
theorem mode_property_off_reports_normal_witness :
    sample_entity_off.mode = Except.ok MODE_NORMAL ∧
    sample_entity.mode = (match dictGet FRIGIDAIRE_TO_HA_MODE Mode.DRY with
      | some v => Except.ok v
      | none => Except.error "KeyError") :=
  ⟨(mode_property_off_reports_normal sample_entity_off sample_details_off rfl).1 rfl,
   (mode_property_off_reports_normal sample_entity sample_details rfl).2
     Mode.DRY rfl (by decide)⟩

/-- A fan speed outside the three mapped ones misses the fan table. -/
theorem fan_table_unmapped_none (fs : FanSpeed)
    (h : fs ∉ [ FanSpeed.LOW, FanSpeed.MEDIUM, FanSpeed.HIGH]) :
    dictGet FRIGIDAIRE_TO_HA_FAN_MODE fs = none := by
  cases fs <;> revert h <;> decide

/-- Claim C10: `extra_state_attributes` indexes the fan table without a
membership guard: every fan speed other than `LOW`, `MEDIUM`, `HIGH` misses
the table, and for details whose fan-speed entry is absent or unmapped the
property raises instead of returning attributes — unlike the guarded
`set_fan_mode` path. -/
theorem extra_state_attributes_requires_mapped_fan_speed :
    (∀ fs : FanSpeed, fs ∉ [ FanSpeed.LOW, FanSpeed.MEDIUM, FanSpeed.HIGH] →
      dictGet FRIGIDAIRE_TO_HA_FAN_MODE fs = none) ∧
    (∀ (s : FrigidaireDehumidifier) (d : Details), s.details = some d →
      (∀ fs : FanSpeed, d.fanSpeed = some fs →
        fs ∉ [ FanSpeed.LOW, FanSpeed.MEDIUM, FanSpeed.HIGH]) →
      ∃ e, s.extra_state_attributes = Except.error e) := by
  refine ⟨fan_table_unmapped_none, ?_⟩
  intro s d hd hfs
  match hspeed : d.fanSpeed with
  | none =>
    exact ⟨"KeyError",
      by simp [FrigidaireDehumidifier.extra_state_attributes, hd, hspeed]⟩
  | some fs =>
    have hnone := fan_table_unmapped_none fs (hfs fs hspeed)
    exact ⟨"KeyError",
      by simp [FrigidaireDehumidifier.extra_state_attributes, hd, hspeed, hnone]⟩

/-- Witness for C10 at fan speed `OFF`. -/
theorem extra_state_attributes_requires_mapped_fan_speed_witness :
    dictGet FRIGIDAIRE_TO_HA_FAN_MODE FanSpeed.OFF = none ∧
    ∃ e, sample_entity_fan_off.extra_state_attributes = Except.error e :=
  ⟨extra_state_attributes_requires_mapped_fan_speed.1 FanSpeed.OFF (by decide),
   extra_state_attributes_requires_mapped_fan_speed.2 sample_entity_fan_off
     sample_details_fan_off rfl
     (by
       intro fs hfs
       simp [sample_details_fan_off, sample_details] at hfs
       subst hfs
       decide)⟩

end Frig
